import Mathlib

/-!
Shallow embedding of the EchoLedger core: the Motoko `DirectiveManager` actor
(directive store, emergency lookup, erasure eligibility, heartbeat sweep), the
Rust `MedicalNLPProcessor` Tier-1 extractor, the organ-network recipient
matching, and the post-mortem execution engine sketch.

Modelling conventions: Motoko `Time.now()` is passed explicitly as `now : Int`
(nanoseconds); `Float` scores become `ℚ`; `Blob` becomes `List Nat`;
`HashMap` state becomes an association list with replace-on-put semantics;
`Debug.print` audit lines become an explicit audit-log list; fallible public
functions return `Except String α` paired with the successor state.
-/

namespace EchoLedger

/-- Motoko `Blob`, modelled as a list of bytes. -/
abbrev Blob := List Nat

/-- Motoko `debug_show` on a blob, used by the actor to derive the patient key. -/
def debugShowBlob (b : Blob) : String := toString b

/-- `DirectiveRecord` from `DirectiveManager` (part_002, lines 13-24). -/
structure DirectiveRecord where
  patient_id_hash : Blob
  directive_type : String
  directive_content_hash : Blob
  created_at : Int
  updated_at : Int
  retention_period : Int
  off_chain_reference : String
  signature : Blob
  jurisdiction : String
  legal_validity_score : ℚ
deriving DecidableEq

/-- `EmergencyDirective` from `DirectiveManager` (part_002, lines 26-33). -/
structure EmergencyDirective where
  directive_type : String
  details : String
  confidence_score : ℚ
  timestamp : Int
  legal_validity : ℚ
  emergency_conditions : List String
deriving DecidableEq

/-- The actor's mutable state: the `directives` hash map (as an association
list), the two counters, and the audit trail emitted via `Debug.print`. -/
structure ManagerState where
  directives : List (String × DirectiveRecord)
  totalDirectives : Nat
  emergencyResponsesServed : Nat
  auditLog : List String
deriving DecidableEq

/-- HIPAA retention periods by jurisdiction, in nanoseconds (part_002, lines 53-58). -/
def retentionPolicies : List (String × Int) :=
  [("US", 6 * 365 * 24 * 60 * 60 * 1000000000),
   ("EU", 5 * 365 * 24 * 60 * 60 * 1000000000),
   ("UK", 8 * 365 * 24 * 60 * 60 * 1000000000),
   ("CA", 10 * 365 * 24 * 60 * 60 * 1000000000)]

/-- The inline default used by `store_directive`, `emergency_lookup` and
`heartbeat` when the jurisdiction is not configured: 10 years in nanoseconds. -/
def defaultRetention : Int := 10 * 365 * 24 * 60 * 60 * 1000000000

/-- The `switch (retentionPolicies.get j) ... case null default` pattern shared
by `store_directive` (lines 67-70), `emergency_lookup` (111-114) and
`heartbeat` (267-270). -/
def maxRetentionFor (jurisdiction : String) : Int :=
  match retentionPolicies.lookup jurisdiction with
  | some period => period
  | none => defaultRetention

/-- `HashMap.put`: replace any binding of the key, keyed lookup finds the new value. -/
def putAssoc (k : String) (v : DirectiveRecord) (m : List (String × DirectiveRecord)) :
    List (String × DirectiveRecord) :=
  (k, v) :: m.filter (fun kv => kv.1 != k)

/-- `store_directive` (part_002, lines 61-89): validates retention period and
legal validity, then upserts under `debug_show(patient_id_hash)`, bumps the
counter and emits the WRITE audit line. -/
def store_directive (now : Int) (patient_id_hash : Blob)
    (directive_metadata : DirectiveRecord) (caller : String) (s : ManagerState) :
    Except String Unit × ManagerState :=
  let maxRetention := maxRetentionFor directive_metadata.jurisdiction
  if directive_metadata.retention_period > maxRetention then
    (.error ("Retention period exceeds regulatory limits for jurisdiction: " ++
      directive_metadata.jurisdiction), s)
  else if directive_metadata.legal_validity_score < 7/10 then
    (.error "Legal validity score too low - requires human review", s)
  else
    let patient_key := debugShowBlob patient_id_hash
    (.ok (),
      { s with
        directives := putAssoc patient_key directive_metadata s.directives
        totalDirectives := s.totalDirectives + 1
        auditLog := s.auditLog ++
          ["AUDIT: Directive stored - Patient: " ++ patient_key ++ " - Type: " ++
            directive_metadata.directive_type ++ " - Caller: " ++ caller ++
            " - Time: " ++ toString now] })

/-- `extractEmergencyConditions` (part_002, lines 137-152). -/
def extractEmergencyConditions (directiveType : String) : List String :=
  if directiveType = "DNR" then
    ["No resuscitation", "No mechanical ventilation", "Comfort care only"]
  else if directiveType = "ORGAN_DONATION" then
    ["Organ harvesting authorized", "Contact organ network",
     "Time-sensitive coordination required"]
  else if directiveType = "DATA_CONSENT" then
    ["Research data sharing authorized", "Anonymization required"]
  else
    ["Standard directive conditions apply"]

/-- `emergency_lookup` (part_002, lines 92-134): logs the access, looks the
patient up, rejects a record past its jurisdiction's retention bound, and
otherwise projects the record into an `EmergencyDirective`. -/
def emergency_lookup (now : Int) (patient_id_hash : Blob)
    (hospital_principal : String) (emergency_token : String) (s : ManagerState) :
    Except String EmergencyDirective × ManagerState :=
  let patient_key := debugShowBlob patient_id_hash
  let audited := { s with auditLog := s.auditLog ++
    ["AUDIT: Emergency access - Patient: " ++ patient_key ++ " - Hospital: " ++
      hospital_principal ++ " - Token: " ++ emergency_token ++ " - Time: " ++
      toString now] }
  match audited.directives.lookup patient_key with
  | none => (.error "No directive found for patient", audited)
  | some directive =>
    let age := now - directive.created_at
    let maxRetention := maxRetentionFor directive.jurisdiction
    if age > maxRetention then
      (.error "Directive has exceeded retention period and cannot be accessed", audited)
    else
      (.ok
        { directive_type := directive.directive_type
          details := "Directive verified on-chain - " ++ directive.directive_type ++
            " conditions apply"
          confidence_score := directive.legal_validity_score
          timestamp := now
          legal_validity := directive.legal_validity_score
          emergency_conditions := extractEmergencyConditions directive.directive_type },
       { audited with emergencyResponsesServed := audited.emergencyResponsesServed + 1 })

/-- `check_erasure_eligibility` (part_002, lines 175-199): only the `"EU"`
jurisdiction argument triggers the age test; every other jurisdiction answers
`false` unconditionally. -/
def check_erasure_eligibility (now : Int) (patient_id_hash : Blob)
    (jurisdiction : String) (s : ManagerState) : Except String Bool :=
  let patient_key := debugShowBlob patient_id_hash
  match s.directives.lookup patient_key with
  | none => .error "No directive found for patient"
  | some directive =>
    if jurisdiction = "EU" then
      let retentionPeriod :=
        match retentionPolicies.lookup "EU" with
        | some period => period
        | none => 5 * 365 * 24 * 60 * 60 * 1000000000
      .ok (decide (now - directive.created_at > retentionPeriod))
    else
      .ok false

/-- `heartbeat` (part_002, lines 260-281): collects the keys of records whose
age exceeds their jurisdiction's retention bound, then deletes them, logging
each removal. -/
def heartbeat (now : Int) (s : ManagerState) : ManagerState :=
  let expiredKeys :=
    (s.directives.filter
      (fun kd => decide (now - kd.2.created_at > maxRetentionFor kd.2.jurisdiction))).map
      Prod.fst
  { s with
    directives := s.directives.filter (fun kd => !(expiredKeys.contains kd.1))
    auditLog := s.auditLog ++ expiredKeys.map
      (fun k => "AUDIT: Expired directive removed - Key: " ++ k ++ " - Time: " ++
        toString now) }

/-- C1: if every record stored under the patient key (if any — the sweep may
already have removed it) is past its jurisdiction's retention bound, then
`emergency_lookup` never returns a record, and when the record is still
present the error is the retention-expired one. -/
theorem emergency_lookup_expired_never_returns_record
    (now : Int) (hash : Blob) (hosp tok : String) (s : ManagerState)
    (hexp : ∀ d, s.directives.lookup (debugShowBlob hash) = some d →
      now - d.created_at > maxRetentionFor d.jurisdiction) :
    (∀ e, (emergency_lookup now hash hosp tok s).1 ≠ .ok e) ∧
    (∀ d, s.directives.lookup (debugShowBlob hash) = some d →
      (emergency_lookup now hash hosp tok s).1 =
        .error "Directive has exceeded retention period and cannot be accessed") := by
  unfold emergency_lookup
  cases hld : s.directives.lookup (debugShowBlob hash) with
  | none => simp [hld]
  | some d =>
    have hage := hexp d hld
    simp [hld, hage]

/-- A directive record whose age at `now = 3·10^17` exceeds the US bound. -/
def sampleExpiredRecord : DirectiveRecord :=
  { patient_id_hash := [1], directive_type := "DNR", directive_content_hash := [2]
    created_at := 0, updated_at := 0, retention_period := 1000
    off_chain_reference := "ref", signature := [3], jurisdiction := "US"
    legal_validity_score := 9/10 }

theorem emergency_lookup_expired_witness :
    (∀ e, (emergency_lookup 300000000000000000 [1] "hosp" "tok"
      ⟨[(debugShowBlob [1], sampleExpiredRecord)], 1, 0, []⟩).1 ≠ .ok e) ∧
    (∀ d, (ManagerState.mk [(debugShowBlob [1], sampleExpiredRecord)] 1 0
        []).directives.lookup (debugShowBlob [1]) = some d →
      (emergency_lookup 300000000000000000 [1] "hosp" "tok"
        ⟨[(debugShowBlob [1], sampleExpiredRecord)], 1, 0, []⟩).1 =
        .error "Directive has exceeded retention period and cannot be accessed") :=
  emergency_lookup_expired_never_returns_record 300000000000000000 [1] "hosp" "tok"
    ⟨[(debugShowBlob [1], sampleExpiredRecord)], 1, 0, []⟩
    (by
      intro d hd
      simp [List.lookup] at hd
      subst hd
      decide)

/-- C3: `store_directive` fails with the retention error when the retention
period exceeds the jurisdiction maximum, fails with the low-validity error when
`legal_validity_score < 0.7`, and otherwise succeeds, upserting the record
under the patient key and appending the WRITE audit line. -/
theorem store_directive_spec (now : Int) (hash : Blob) (md : DirectiveRecord)
    (caller : String) (s : ManagerState) :
    (md.retention_period > maxRetentionFor md.jurisdiction →
      (store_directive now hash md caller s).1 =
        .error ("Retention period exceeds regulatory limits for jurisdiction: " ++
          md.jurisdiction)) ∧
    (¬ md.retention_period > maxRetentionFor md.jurisdiction →
      md.legal_validity_score < 7/10 →
      (store_directive now hash md caller s).1 =
        .error "Legal validity score too low - requires human review") ∧
    (¬ md.retention_period > maxRetentionFor md.jurisdiction →
      ¬ md.legal_validity_score < 7/10 →
      (store_directive now hash md caller s).1 = .ok () ∧
      (store_directive now hash md caller s).2.directives =
        putAssoc (debugShowBlob hash) md s.directives ∧
      (store_directive now hash md caller s).2.totalDirectives =
        s.totalDirectives + 1 ∧
      (store_directive now hash md caller s).2.auditLog = s.auditLog ++
        ["AUDIT: Directive stored - Patient: " ++ debugShowBlob hash ++
          " - Type: " ++ md.directive_type ++ " - Caller: " ++ caller ++
          " - Time: " ++ toString now]) := by
  refine ⟨fun h1 => ?_, fun h1 h2 => ?_, fun h1 h2 => ?_⟩
  · simp [store_directive, h1]
  · simp [store_directive, h1, h2]
  · simp [store_directive, h1, h2]

/-- A record accepted by `store_directive` under the US policy. -/
def sampleValidRecord : DirectiveRecord :=
  { patient_id_hash := [1], directive_type := "DNR", directive_content_hash := [2]
    created_at := 0, updated_at := 0, retention_period := 1000
    off_chain_reference := "ref", signature := [3], jurisdiction := "US"
    legal_validity_score := 9/10 }

/-- A record rejected for a too-long retention period. -/
def sampleLongRetentionRecord : DirectiveRecord :=
  { sampleValidRecord with retention_period := 400000000000000000 }

/-- A record rejected for a low legal validity score. -/
def sampleLowValidityRecord : DirectiveRecord :=
  { sampleValidRecord with legal_validity_score := 1/2 }

theorem store_directive_spec_witness :
    (store_directive 5 [1] sampleLongRetentionRecord "caller"
      ⟨[], 0, 0, []⟩).1 =
      .error ("Retention period exceeds regulatory limits for jurisdiction: " ++
        sampleLongRetentionRecord.jurisdiction) ∧
    (store_directive 5 [1] sampleLowValidityRecord "caller" ⟨[], 0, 0, []⟩).1 =
      .error "Legal validity score too low - requires human review" ∧
    (store_directive 5 [1] sampleValidRecord "caller" ⟨[], 0, 0, []⟩).1 = .ok () :=
  ⟨(store_directive_spec 5 [1] sampleLongRetentionRecord "caller"
      ⟨[], 0, 0, []⟩).1 (by decide),
   (store_directive_spec 5 [1] sampleLowValidityRecord "caller"
      ⟨[], 0, 0, []⟩).2.1 (by decide)
      (by norm_num [sampleLowValidityRecord, sampleValidRecord]),
   ((store_directive_spec 5 [1] sampleValidRecord "caller"
      ⟨[], 0, 0, []⟩).2.2 (by decide)
      (by norm_num [sampleValidRecord])).1⟩

/-- C10: `store_directive` is atomic on error — whenever it returns an error,
the returned state (directive map, counters and audit log) is exactly the
input state. -/
theorem store_directive_atomic_on_error (now : Int) (hash : Blob)
    (md : DirectiveRecord) (caller : String) (s : ManagerState) (e : String)
    (herr : (store_directive now hash md caller s).1 = .error e) :
    (store_directive now hash md caller s).2 = s := by
  by_cases h1 : md.retention_period > maxRetentionFor md.jurisdiction
  · simp [store_directive, h1]
  · by_cases h2 : md.legal_validity_score < 7/10
    · simp [store_directive, h1, h2]
    · simp [store_directive, h1, h2] at herr

theorem store_directive_atomic_on_error_witness :
    (store_directive 5 [1] sampleLowValidityRecord "caller" ⟨[], 0, 0, []⟩).2 =
      ⟨[], 0, 0, []⟩ :=
  store_directive_atomic_on_error 5 [1] sampleLowValidityRecord "caller"
    ⟨[], 0, 0, []⟩ "Legal validity score too low - requires human review"
    (by
      norm_num [store_directive, maxRetentionFor, retentionPolicies,
        List.lookup, sampleLowValidityRecord, sampleValidRecord])

/-- C4 counterexample: a US record whose age far exceeds the US retention
bound still gets `ok false` from `check_erasure_eligibility`, contradicting
the claim that the answer is `true` iff `now - created_at` exceeds the
jurisdiction's configured retention period. -/
theorem check_erasure_eligibility_counterexample :
    check_erasure_eligibility 300000000000000000 [1] "US"
      ⟨[(debugShowBlob [1], sampleExpiredRecord)], 1, 0, []⟩ = .ok false ∧
    300000000000000000 - sampleExpiredRecord.created_at > maxRetentionFor "US" := by
  constructor
  · rfl
  · decide

/-- C4 amended: `check_erasure_eligibility` answers `true` iff the jurisdiction
argument is `"EU"` and the record's age exceeds the configured EU retention
period; for every other jurisdiction it answers `false` regardless of age. -/
theorem check_erasure_eligibility_amended (now : Int) (hash : Blob)
    (jurisdiction : String) (s : ManagerState) (d : DirectiveRecord)
    (hd : s.directives.lookup (debugShowBlob hash) = some d) :
    check_erasure_eligibility now hash jurisdiction s =
      .ok (decide (jurisdiction = "EU" ∧
        now - d.created_at > maxRetentionFor "EU")) := by
  by_cases hj : jurisdiction = "EU" <;>
    simp [check_erasure_eligibility, hd, hj, maxRetentionFor,
      retentionPolicies, List.lookup]

theorem check_erasure_eligibility_amended_witness :
    check_erasure_eligibility 300000000000000000 [1] "EU"
      ⟨[(debugShowBlob [1], sampleExpiredRecord)], 1, 0, []⟩ =
      .ok (decide (("EU" : String) = "EU" ∧
        300000000000000000 - sampleExpiredRecord.created_at >
          maxRetentionFor "EU")) :=
  check_erasure_eligibility_amended 300000000000000000 [1] "EU"
    ⟨[(debugShowBlob [1], sampleExpiredRecord)], 1, 0, []⟩ sampleExpiredRecord
    (by simp [List.lookup])

/-- C8: a successful `emergency_lookup` of a present, unexpired record returns
the projection whose emergency conditions are `extractEmergencyConditions` of
the record's type and whose confidence and legal-validity fields are both the
stored `legal_validity_score`; the condition lists per type are the fixed ones
from the source. -/
theorem emergency_lookup_projection (now : Int) (hash : Blob) (hosp tok : String)
    (s : ManagerState) (d : DirectiveRecord)
    (hd : s.directives.lookup (debugShowBlob hash) = some d)
    (hfresh : ¬ now - d.created_at > maxRetentionFor d.jurisdiction) :
    (emergency_lookup now hash hosp tok s).1 = .ok
      { directive_type := d.directive_type
        details := "Directive verified on-chain - " ++ d.directive_type ++
          " conditions apply"
        confidence_score := d.legal_validity_score
        timestamp := now
        legal_validity := d.legal_validity_score
        emergency_conditions := extractEmergencyConditions d.directive_type } ∧
    extractEmergencyConditions "DNR" =
      ["No resuscitation", "No mechanical ventilation", "Comfort care only"] ∧
    extractEmergencyConditions "ORGAN_DONATION" =
      ["Organ harvesting authorized", "Contact organ network",
       "Time-sensitive coordination required"] ∧
    extractEmergencyConditions "DATA_CONSENT" =
      ["Research data sharing authorized", "Anonymization required"] ∧
    (∀ t, t ≠ "DNR" → t ≠ "ORGAN_DONATION" → t ≠ "DATA_CONSENT" →
      extractEmergencyConditions t = ["Standard directive conditions apply"]) := by
  refine ⟨?_, rfl, rfl, rfl, fun t h1 h2 h3 => ?_⟩
  · unfold emergency_lookup
    simp [hd, hfresh]
  · simp [extractEmergencyConditions, h1, h2, h3]

theorem emergency_lookup_projection_witness :
    (emergency_lookup 5 [1] "hosp" "tok"
      ⟨[(debugShowBlob [1], sampleValidRecord)], 1, 0, []⟩).1 = .ok
      { directive_type := sampleValidRecord.directive_type
        details := "Directive verified on-chain - " ++
          sampleValidRecord.directive_type ++ " conditions apply"
        confidence_score := sampleValidRecord.legal_validity_score
        timestamp := 5
        legal_validity := sampleValidRecord.legal_validity_score
        emergency_conditions :=
          extractEmergencyConditions sampleValidRecord.directive_type } :=
  (emergency_lookup_projection 5 [1] "hosp" "tok"
    ⟨[(debugShowBlob [1], sampleValidRecord)], 1, 0, []⟩ sampleValidRecord
    (by simp [List.lookup]) (by decide)).1

/-- C9: an unconfigured jurisdiction falls back to the 10-year default bound,
and `store_directive`, `emergency_lookup` and the `heartbeat` cleanup all
operate with that bound instead of failing. -/
theorem unknown_jurisdiction_default_retention (j : String)
    (hj : retentionPolicies.lookup j = none) :
    maxRetentionFor j = defaultRetention ∧
    (∀ (now : Int) (hash : Blob) (md : DirectiveRecord) (caller : String)
        (s : ManagerState), md.jurisdiction = j →
      md.retention_period ≤ defaultRetention →
      ¬ md.legal_validity_score < 7/10 →
      (store_directive now hash md caller s).1 = .ok ()) ∧
    (∀ (now : Int) (hash : Blob) (hosp tok : String) (s : ManagerState)
        (d : DirectiveRecord),
      s.directives.lookup (debugShowBlob hash) = some d → d.jurisdiction = j →
      now - d.created_at ≤ defaultRetention →
      ∃ e, (emergency_lookup now hash hosp tok s).1 = .ok e) ∧
    (∀ (now : Int) (k : String) (d : DirectiveRecord) (tot srv : Nat)
        (log : List String), d.jurisdiction = j →
      (heartbeat now ⟨[(k, d)], tot, srv, log⟩).directives =
        if now - d.created_at > defaultRetention then [] else [(k, d)]) := by
  have hmax : maxRetentionFor j = defaultRetention := by
    unfold maxRetentionFor
    rw [hj]
  refine ⟨hmax, fun now hash md caller s hmd hret hval => ?_,
    fun now hash hosp tok s d hd hdj hage => ?_,
    fun now k d tot srv log hdj => ?_⟩
  · have : ¬ md.retention_period > maxRetentionFor md.jurisdiction := by
      rw [hmd, hmax]; omega
    simp [store_directive, this, hval]
  · have hne : ¬ now - d.created_at > maxRetentionFor d.jurisdiction := by
      rw [hdj, hmax]; omega
    simp [emergency_lookup, hd, hne]
  · by_cases hexp : now - d.created_at > defaultRetention
    · have : now - d.created_at > maxRetentionFor d.jurisdiction := by
        rw [hdj, hmax]; omega
      simp [heartbeat, this, hexp]
    · have : ¬ now - d.created_at > maxRetentionFor d.jurisdiction := by
        rw [hdj, hmax]; omega
      simp [heartbeat, this, hexp]

/-- A record in an unconfigured jurisdiction, within the 10-year default. -/
def sampleUnknownJurisdictionRecord : DirectiveRecord :=
  { sampleValidRecord with jurisdiction := "JP" }

theorem unknown_jurisdiction_default_retention_witness :
    maxRetentionFor "JP" = defaultRetention ∧
    (store_directive 5 [1] sampleUnknownJurisdictionRecord "caller"
      ⟨[], 0, 0, []⟩).1 = .ok () ∧
    (∃ e, (emergency_lookup 5 [1] "hosp" "tok"
      ⟨[(debugShowBlob [1], sampleUnknownJurisdictionRecord)], 1, 0, []⟩).1 =
        .ok e) ∧
    (heartbeat 5 ⟨[("k", sampleUnknownJurisdictionRecord)], 1, 0, []⟩).directives =
      if (5 : Int) - sampleUnknownJurisdictionRecord.created_at > defaultRetention
      then [] else [("k", sampleUnknownJurisdictionRecord)] :=
  ⟨(unknown_jurisdiction_default_retention "JP" (by decide)).1,
   (unknown_jurisdiction_default_retention "JP" (by decide)).2.1 5 [1]
     sampleUnknownJurisdictionRecord "caller" ⟨[], 0, 0, []⟩ rfl (by decide)
     (by norm_num [sampleUnknownJurisdictionRecord, sampleValidRecord]),
   (unknown_jurisdiction_default_retention "JP" (by decide)).2.2.1 5 [1] "hosp"
     "tok" ⟨[(debugShowBlob [1], sampleUnknownJurisdictionRecord)], 1, 0, []⟩
     sampleUnknownJurisdictionRecord (by simp [List.lookup]) rfl (by decide),
   (unknown_jurisdiction_default_retention "JP" (by decide)).2.2.2 5 "k"
     sampleUnknownJurisdictionRecord 1 0 [] rfl⟩

/-! ## Tier-1 directive extractor (`MedicalNLPProcessor`, WCHL plan lines 385-597) -/

/-- Whether the needle list is a prefix of the hay list (`Bool`, by chars). -/
def matchesAt : List Char → List Char → Bool
  | [], _ => true
  | _ :: _, [] => false
  | n :: ns, h :: hs => (n == h) && matchesAt ns hs

/-- Whether the needle occurs contiguously anywhere in the hay. -/
def hasSub (needle : List Char) : List Char → Bool
  | [] => matchesAt needle []
  | h :: hs => matchesAt needle (h :: hs) || hasSub needle hs

/-- Rust `str::contains` on our strings. -/
def textContains (hay pat : String) : Bool := hasSub pat.toList hay.toList

/-- Rust `str::to_lowercase`, char by char (the keyword table is ASCII). -/
def lowercase (s : String) : String := String.mk (s.toList.map Char.toLower)

/-- `ExtractedDirective` (WCHL plan lines 378-383). -/
structure ExtractedDirective where
  directive_type : String
  conditions : List String
  confidence : ℚ
  extracted_text : String
deriving DecidableEq

/-- `MedicalDirectiveAnalysis` output of `process_directive_text`. -/
structure MedicalDirectiveAnalysis where
  confidence_score : ℚ
  extracted_directives : List ExtractedDirective
  contraindications : List String
  legal_validity_score : ℚ
  requires_human_review : Bool
  processing_method : String
deriving DecidableEq

/-- `MedicalNLPProcessor`: the keyword table and per-type thresholds. In Rust
both fields are `std::collections::HashMap`s whose iteration order is
unspecified and randomized per instance; an instance is therefore any
`MedicalNLPProcessor` whose `medical_keywords` list is a permutation of the
insertion entries of `MedicalNLPProcessor.new` (the thresholds map is only
ever read by key, so its order is irrelevant and kept fixed). -/
structure MedicalNLPProcessor where
  medical_keywords : List (String × List String)
  confidence_thresholds : List (String × ℚ)
deriving DecidableEq

/-- `MedicalNLPProcessor::new` (WCHL plan lines 391-434): the inserted
entries, recorded in insertion order; a concrete instance's iteration order is
any permutation of this list. -/
def MedicalNLPProcessor.new : MedicalNLPProcessor :=
  { medical_keywords :=
      [("DNR",
        ["do not resuscitate", "dnr", "no resuscitation", "do not revive",
         "no cpr", "no life support"]),
       ("ORGAN_DONATION",
        ["donate organs", "organ donation", "donate my", "kidney", "liver",
         "heart", "cornea", "tissue donation"]),
       ("DATA_CONSENT",
        ["research", "anonymized data", "medical research", "share data",
         "cancer research"])]
    confidence_thresholds :=
      [("DNR", 17/20), ("ORGAN_DONATION", 4/5), ("DATA_CONSENT", 3/4)] }

/-- `extract_conditions` (WCHL plan lines 493-523). -/
def extract_conditions (text : String) (directive_type : String) : List String :=
  if directive_type = "DNR" then
    (if textContains text "less than" && textContains text "percent" then
      ["Recovery probability threshold specified"] else []) ++
    (if textContains text "terminal" || textContains text "end stage" then
      ["Terminal condition specified"] else []) ++
    (if textContains text "vegetative" then
      ["Persistent vegetative state specified"] else [])
  else if directive_type = "ORGAN_DONATION" then
    (if textContains text "kidney" then ["Kidney donation"] else []) ++
    (if textContains text "liver" then ["Liver donation"] else []) ++
    (if textContains text "heart" then ["Heart donation"] else []) ++
    (if textContains text "cornea" then ["Cornea donation"] else [])
  else if directive_type = "DATA_CONSENT" then
    (if textContains text "anonymized" then ["Anonymization required"] else []) ++
    (if textContains text "cancer" then ["Cancer research consent"] else []) ++
    (if textContains text "genetic" then ["Genetic research consent"] else [])
  else []

/-- `detect_contraindications` (WCHL plan lines 525-541). -/
def detect_contraindications (text : String) : List String :=
  (if textContains text "religious" && textContains text "objection" then
    ["Religious objections noted"] else []) ++
  (if textContains text "family" && textContains text "disagree" then
    ["Family disagreement potential"] else []) ++
  (if textContains text "uncertain" || textContains text "maybe" ||
      textContains text "might" then
    ["Uncertain language detected"] else [])

/-- `assess_legal_validity` (WCHL plan lines 543-557). -/
def assess_legal_validity (text : String) : ℚ :=
  let v0 : ℚ := 1/2
  let v1 := if textContains text "sound mind" then v0 + 1/5 else v0
  let v2 := if textContains text "witness" then v1 + 3/20 else v1
  let v3 := if textContains text "signature" then v2 + 1/10 else v2
  let v4 := if textContains text "date" then v3 + 1/20 else v3
  let v5 := if textContains text "coerced" || textContains text "forced" then
    v4 - 3/10 else v4
  let v6 := if textContains text "unclear" || textContains text "confused" then
    v5 - 1/5 else v5
  min (max v6 0) 1

/-- `contains_complex_medical_terms` (WCHL plan lines 559-566). -/
def contains_complex_medical_terms (text : String) : Bool :=
  ["myocardial infarction", "cerebrovascular accident", "pulmonary embolism",
   "sepsis", "multi-organ failure", "intracranial pressure",
   "glasgow coma scale"].any (fun t => textContains text t)

/-- The keywords of one directive type matched by the lowercased text, in
table order (the loop over `keywords` with `matched_keywords.push`). -/
def matchedKeywords (text_lower : String) (keywords : List String) : List String :=
  keywords.filter (fun k => textContains text_lower k)

/-- `(matches as f32 / keywords.len() as f32) * 0.9 + 0.1`. -/
def keywordConfidence (text_lower : String) (keywords : List String) : ℚ :=
  ((matchedKeywords text_lower keywords).length : ℚ) /
    ((keywords.length : ℚ)) * (9/10) + 1/10

/-- `self.confidence_thresholds.get(directive_type).unwrap_or(&0.7)`. -/
def thresholdFor (p : MedicalNLPProcessor) (directive_type : String) : ℚ :=
  (p.confidence_thresholds.lookup directive_type).getD (7/10)

/-- One iteration of the `for (directive_type, keywords)` loop: the candidate
pushed for this entry, if any. -/
def candidateFor (p : MedicalNLPProcessor) (text_lower : String)
    (entry : String × List String) : Option ExtractedDirective :=
  if 0 < (matchedKeywords text_lower entry.2).length then
    if thresholdFor p entry.1 ≤ keywordConfidence text_lower entry.2 then
      some
        { directive_type := entry.1
          conditions := extract_conditions text_lower entry.1
          confidence := keywordConfidence text_lower entry.2
          extracted_text :=
            String.intercalate ", " (matchedKeywords text_lower entry.2) }
    else none
  else none

/-- `process_directive_text` (WCHL plan lines 436-491). The
`for (directive_type, keywords) in &self.medical_keywords` loop walks the
instance's table in that instance's (unspecified) iteration order, modelled
here as the order of the instance's `medical_keywords` list. -/
def MedicalNLPProcessor.process_directive_text (p : MedicalNLPProcessor)
    (text : String) : MedicalDirectiveAnalysis :=
  let text_lower := (lowercase text)
  let extracted := p.medical_keywords.filterMap (candidateFor p text_lower)
  let total_confidence : ℚ := (extracted.map (fun e => e.confidence)).sum
  let directive_count := extracted.length
  let overall_confidence : ℚ :=
    if 0 < directive_count then total_confidence / (directive_count : ℚ) else 0
  let requires_review :=
    decide (overall_confidence < 17/20) || decide (text.length > 1000) ||
      contains_complex_medical_terms text_lower
  { confidence_score := overall_confidence
    extracted_directives := extracted
    contraindications := detect_contraindications text_lower
    legal_validity_score := assess_legal_validity text_lower
    requires_human_review := requires_review
    processing_method := if requires_review then "HYBRID" else "ON_CHAIN" }

theorem process_extracted_eq (p : MedicalNLPProcessor) (text : String) :
    (p.process_directive_text text).extracted_directives =
      p.medical_keywords.filterMap (candidateFor p (lowercase text)) := rfl

theorem candidateFor_some (p : MedicalNLPProcessor) (tl : String)
    (en : String × List String) (e : ExtractedDirective)
    (h : candidateFor p tl en = some e) :
    e.directive_type = en.1 ∧ e.confidence = keywordConfidence tl en.2 ∧
    thresholdFor p en.1 ≤ keywordConfidence tl en.2 ∧
    0 < (matchedKeywords tl en.2).length := by
  unfold candidateFor at h
  split_ifs at h with h1 h2
  · cases h
    exact ⟨rfl, rfl, h2, h1⟩

theorem candidateFor_emit (p : MedicalNLPProcessor) (tl : String) (t : String)
    (kws : List String) (hpos : 0 < (matchedKeywords tl kws).length)
    (hth : thresholdFor p t ≤ keywordConfidence tl kws) :
    candidateFor p tl (t, kws) = some
      { directive_type := t
        conditions := extract_conditions tl t
        confidence := keywordConfidence tl kws
        extracted_text := String.intercalate ", " (matchedKeywords tl kws) } := by
  unfold candidateFor
  simp [hpos, hth]

theorem new_keywords_inj (t : String) (kws kws' : List String)
    (h : (t, kws) ∈ MedicalNLPProcessor.new.medical_keywords)
    (h' : (t, kws') ∈ MedicalNLPProcessor.new.medical_keywords) :
    kws' = kws := by
  simp [MedicalNLPProcessor.new] at h h'
  rcases h with ⟨rfl, rfl⟩ | ⟨rfl, rfl⟩ | ⟨rfl, rfl⟩ <;> simp_all

/-- C5: for a directive type of the Tier-1 table with at least one matched
trigger phrase, the per-type thresholds are 0.85 / 0.80 / 0.75, the confidence
is the matched fraction rescaled by `* 0.9 + 0.1`, the type is emitted iff that
confidence meets its threshold, and every emitted entry of that type carries
exactly that confidence. -/
theorem tier1_confidence_thresholds (text : String) (t : String)
    (kws : List String)
    (hmem : (t, kws) ∈ MedicalNLPProcessor.new.medical_keywords)
    (hpos : 0 < (matchedKeywords (lowercase text) kws).length) :
    (thresholdFor MedicalNLPProcessor.new "DNR" = 17/20 ∧
     thresholdFor MedicalNLPProcessor.new "ORGAN_DONATION" = 4/5 ∧
     thresholdFor MedicalNLPProcessor.new "DATA_CONSENT" = 3/4) ∧
    keywordConfidence (lowercase text) kws =
      ((matchedKeywords (lowercase text) kws).length : ℚ) / ((kws.length : ℚ)) *
        (9/10) + 1/10 ∧
    ((∃ e ∈ (MedicalNLPProcessor.new.process_directive_text
        text).extracted_directives, e.directive_type = t) ↔
      thresholdFor MedicalNLPProcessor.new t ≤
        keywordConfidence (lowercase text) kws) ∧
    (∀ e ∈ (MedicalNLPProcessor.new.process_directive_text
        text).extracted_directives, e.directive_type = t →
      e.confidence = keywordConfidence (lowercase text) kws) := by
  refine ⟨⟨rfl, rfl, rfl⟩, rfl, ⟨?_, ?_⟩, ?_⟩
  · rintro ⟨e, he, het⟩
    rw [process_extracted_eq] at he
    obtain ⟨en, hin, hc⟩ := List.mem_filterMap.mp he
    obtain ⟨hty, _, hth, _⟩ := candidateFor_some _ _ _ _ hc
    have hent : en.1 = t := by rw [← hty, het]
    have hen : en = (t, en.2) := by rw [← hent]
    rw [hen] at hin
    have hkw := new_keywords_inj t kws en.2 hmem hin
    rw [hent, hkw] at hth
    exact hth
  · intro hth
    refine ⟨{ directive_type := t
              conditions := extract_conditions (lowercase text) t
              confidence := keywordConfidence (lowercase text) kws
              extracted_text :=
                String.intercalate ", " (matchedKeywords (lowercase text) kws) },
      ?_, rfl⟩
    rw [process_extracted_eq]
    exact List.mem_filterMap.mpr
      ⟨(t, kws), hmem, candidateFor_emit _ _ _ _ hpos hth⟩
  · intro e he het
    rw [process_extracted_eq] at he
    obtain ⟨en, hin, hc⟩ := List.mem_filterMap.mp he
    obtain ⟨hty, hconf, _, _⟩ := candidateFor_some _ _ _ _ hc
    have hent : en.1 = t := by rw [← hty, het]
    have hen : en = (t, en.2) := by rw [← hent]
    rw [hen] at hin
    have hkw := new_keywords_inj t kws en.2 hmem hin
    rw [hkw] at hconf
    exact hconf

theorem tier1_confidence_thresholds_witness :
    thresholdFor MedicalNLPProcessor.new "DNR" = 17/20 ∧
    ((∃ e ∈ (MedicalNLPProcessor.new.process_directive_text
        "dnr").extracted_directives, e.directive_type = "DNR") ↔
      thresholdFor MedicalNLPProcessor.new "DNR" ≤
        keywordConfidence (lowercase "dnr")
          ["do not resuscitate", "dnr", "no resuscitation", "do not revive",
           "no cpr", "no life support"]) :=
  ⟨(tier1_confidence_thresholds "dnr" "DNR"
      ["do not resuscitate", "dnr", "no resuscitation", "do not revive",
       "no cpr", "no life support"]
      (by simp [MedicalNLPProcessor.new]) (by decide)).1.1,
   (tier1_confidence_thresholds "dnr" "DNR"
      ["do not resuscitate", "dnr", "no resuscitation", "do not revive",
       "no cpr", "no life support"]
      (by simp [MedicalNLPProcessor.new]) (by decide)).2.2.1⟩

theorem process_confidence_def (p : MedicalNLPProcessor) (text : String) :
    (p.process_directive_text text).confidence_score =
      if 0 < (p.process_directive_text text).extracted_directives.length then
        ((p.process_directive_text text).extracted_directives.map
          (fun e => e.confidence)).sum /
          (((p.process_directive_text text).extracted_directives.length : ℚ))
      else 0 := rfl

theorem process_review_def (p : MedicalNLPProcessor) (text : String) :
    (p.process_directive_text text).requires_human_review =
      (decide ((p.process_directive_text text).confidence_score < 17/20) ||
        decide (text.length > 1000) ||
        contains_complex_medical_terms (lowercase text)) := rfl

/-- A text whose lowercase matches every DNR phrase and every DATA_CONSENT
phrase (and no ORGAN_DONATION phrase), so both types clear their thresholds. -/
def multiTypeText : String :=
  "do not resuscitate dnr no resuscitation do not revive no cpr " ++
  "no life support anonymized data share data medical research cancer research"

/-- A processor instance over the same table entries and thresholds as
`MedicalNLPProcessor.new`, but whose `HashMap` happens to iterate the keyword
table in a different order (DATA_CONSENT first). -/
def permutedProcessor : MedicalNLPProcessor :=
  { medical_keywords :=
      [("DATA_CONSENT",
        ["research", "anonymized data", "medical research", "share data",
         "cancer research"]),
       ("DNR",
        ["do not resuscitate", "dnr", "no resuscitation", "do not revive",
         "no cpr", "no life support"]),
       ("ORGAN_DONATION",
        ["donate organs", "organ donation", "donate my", "kidney", "liver",
         "heart", "cornea", "tissue donation"])]
    confidence_thresholds :=
      [("DNR", 17/20), ("ORGAN_DONATION", 4/5), ("DATA_CONSENT", 3/4)] }

/-- The DNR trigger phrases, as inserted by `new`. -/
def dnrPhrases : List String :=
  ["do not resuscitate", "dnr", "no resuscitation", "do not revive",
   "no cpr", "no life support"]

/-- The ORGAN_DONATION trigger phrases, as inserted by `new`. -/
def organPhrases : List String :=
  ["donate organs", "organ donation", "donate my", "kidney", "liver",
   "heart", "cornea", "tissue donation"]

/-- The DATA_CONSENT trigger phrases, as inserted by `new`. -/
def dataPhrases : List String :=
  ["research", "anonymized data", "medical research", "share data",
   "cancer research"]

theorem candidateFor_none (p : MedicalNLPProcessor) (tl : String)
    (en : String × List String)
    (h : (matchedKeywords tl en.2).length = 0) :
    candidateFor p tl en = none := by
  unfold candidateFor
  simp [h]

theorem multiType_dnr_matched :
    (matchedKeywords (lowercase multiTypeText) dnrPhrases).length = 6 := by
  decide

theorem multiType_organ_matched :
    (matchedKeywords (lowercase multiTypeText) organPhrases).length = 0 := by
  decide

theorem multiType_data_matched :
    (matchedKeywords (lowercase multiTypeText) dataPhrases).length = 5 := by
  decide

theorem multiType_dnr_conf :
    thresholdFor MedicalNLPProcessor.new "DNR" ≤
      keywordConfidence (lowercase multiTypeText) dnrPhrases := by
  have hth : thresholdFor MedicalNLPProcessor.new "DNR" = 17/20 := rfl
  rw [hth]
  unfold keywordConfidence
  rw [multiType_dnr_matched]
  norm_num [dnrPhrases]

theorem multiType_data_conf :
    thresholdFor MedicalNLPProcessor.new "DATA_CONSENT" ≤
      keywordConfidence (lowercase multiTypeText) dataPhrases := by
  have hth : thresholdFor MedicalNLPProcessor.new "DATA_CONSENT" = 3/4 := rfl
  rw [hth]
  unfold keywordConfidence
  rw [multiType_data_matched]
  norm_num [dataPhrases]

theorem multiType_cand_dnr :
    candidateFor MedicalNLPProcessor.new (lowercase multiTypeText)
      ("DNR", dnrPhrases) = some
      { directive_type := "DNR"
        conditions := extract_conditions (lowercase multiTypeText) "DNR"
        confidence := keywordConfidence (lowercase multiTypeText) dnrPhrases
        extracted_text := String.intercalate ", "
          (matchedKeywords (lowercase multiTypeText) dnrPhrases) } :=
  candidateFor_emit _ _ _ _ (by rw [multiType_dnr_matched]; decide)
    multiType_dnr_conf

theorem multiType_cand_organ :
    candidateFor MedicalNLPProcessor.new (lowercase multiTypeText)
      ("ORGAN_DONATION", organPhrases) = none :=
  candidateFor_none _ _ _ multiType_organ_matched

theorem multiType_cand_data :
    candidateFor MedicalNLPProcessor.new (lowercase multiTypeText)
      ("DATA_CONSENT", dataPhrases) = some
      { directive_type := "DATA_CONSENT"
        conditions := extract_conditions (lowercase multiTypeText) "DATA_CONSENT"
        confidence := keywordConfidence (lowercase multiTypeText) dataPhrases
        extracted_text := String.intercalate ", "
          (matchedKeywords (lowercase multiTypeText) dataPhrases) } :=
  candidateFor_emit _ _ _ _ (by rw [multiType_data_matched]; decide)
    multiType_data_conf

theorem new_extracted_types :
    ((MedicalNLPProcessor.new.process_directive_text
      multiTypeText).extracted_directives).map (fun e => e.directive_type) =
      ["DNR", "DATA_CONSENT"] := by
  rw [process_extracted_eq]
  have hmk : MedicalNLPProcessor.new.medical_keywords =
      [("DNR", dnrPhrases), ("ORGAN_DONATION", organPhrases),
       ("DATA_CONSENT", dataPhrases)] := rfl
  rw [hmk]
  simp only [List.filterMap_cons, List.filterMap_nil, multiType_cand_dnr,
    multiType_cand_organ, multiType_cand_data]
  rfl

theorem permuted_extracted_types :
    ((permutedProcessor.process_directive_text
      multiTypeText).extracted_directives).map (fun e => e.directive_type) =
      ["DATA_CONSENT", "DNR"] := by
  rw [process_extracted_eq]
  have hmk : permutedProcessor.medical_keywords =
      [("DATA_CONSENT", dataPhrases), ("DNR", dnrPhrases),
       ("ORGAN_DONATION", organPhrases)] := rfl
  have c1 : candidateFor permutedProcessor (lowercase multiTypeText)
      ("DATA_CONSENT", dataPhrases) = some
      { directive_type := "DATA_CONSENT"
        conditions := extract_conditions (lowercase multiTypeText) "DATA_CONSENT"
        confidence := keywordConfidence (lowercase multiTypeText) dataPhrases
        extracted_text := String.intercalate ", "
          (matchedKeywords (lowercase multiTypeText) dataPhrases) } :=
    multiType_cand_data
  have c2 : candidateFor permutedProcessor (lowercase multiTypeText)
      ("DNR", dnrPhrases) = some
      { directive_type := "DNR"
        conditions := extract_conditions (lowercase multiTypeText) "DNR"
        confidence := keywordConfidence (lowercase multiTypeText) dnrPhrases
        extracted_text := String.intercalate ", "
          (matchedKeywords (lowercase multiTypeText) dnrPhrases) } :=
    multiType_cand_dnr
  have c3 : candidateFor permutedProcessor (lowercase multiTypeText)
      ("ORGAN_DONATION", organPhrases) = none :=
    multiType_cand_organ
  rw [hmk]
  simp only [List.filterMap_cons, List.filterMap_nil, c1, c2, c3]
  rfl

/-- C7 counterexample: `process_medical_directive` builds a fresh
`MedicalNLPProcessor::new()` per call, and a fresh `std` `HashMap` instance may
iterate the same inserted entries in a different order. Two such instances —
same entries (a permutation), same thresholds — processing the same two-type
text return `extracted_directives` lists in different orders, so repeated
calls need not return an identical ordered list. -/
theorem tier1_not_order_deterministic :
    List.Perm permutedProcessor.medical_keywords
      MedicalNLPProcessor.new.medical_keywords ∧
    permutedProcessor.confidence_thresholds =
      MedicalNLPProcessor.new.confidence_thresholds ∧
    (permutedProcessor.process_directive_text multiTypeText).extracted_directives ≠
      (MedicalNLPProcessor.new.process_directive_text
        multiTypeText).extracted_directives := by
  refine ⟨by decide, rfl, fun heq => ?_⟩
  have h := congrArg (List.map (fun e => e.directive_type)) heq
  rw [permuted_extracted_types, new_extracted_types] at h
  exact absurd h (by decide)

/-- C7 amended: Tier 1 is deterministic up to the keyword-table iteration
order. Repeated calls on one processor instance return identical analyses, and
any two instances over the table's entries (in any iteration order) with the
source's thresholds return the same extracted directives up to list order —
same multiset of entries (hence identical per-type confidences), same overall
confidence score, same contraindications, same legal-validity score, and the
same human-review flag. -/
theorem tier1_deterministic_up_to_order (text : String)
    (p q : MedicalNLPProcessor)
    (hp : List.Perm p.medical_keywords MedicalNLPProcessor.new.medical_keywords)
    (hq : List.Perm q.medical_keywords MedicalNLPProcessor.new.medical_keywords)
    (hpt : p.confidence_thresholds = MedicalNLPProcessor.new.confidence_thresholds)
    (hqt : q.confidence_thresholds = MedicalNLPProcessor.new.confidence_thresholds) :
    (∀ r : MedicalNLPProcessor,
      r.process_directive_text text = r.process_directive_text text) ∧
    List.Perm (p.process_directive_text text).extracted_directives
      (q.process_directive_text text).extracted_directives ∧
    (p.process_directive_text text).confidence_score =
      (q.process_directive_text text).confidence_score ∧
    (p.process_directive_text text).contraindications =
      (q.process_directive_text text).contraindications ∧
    (p.process_directive_text text).legal_validity_score =
      (q.process_directive_text text).legal_validity_score ∧
    (p.process_directive_text text).requires_human_review =
      (q.process_directive_text text).requires_human_review := by
  have hth : ∀ t, thresholdFor p t = thresholdFor q t := by
    intro t
    unfold thresholdFor
    rw [hpt, hqt]
  have hcand : candidateFor p (lowercase text) = candidateFor q (lowercase text) := by
    funext en
    unfold candidateFor
    rw [hth]
  have hext : List.Perm (p.process_directive_text text).extracted_directives
      (q.process_directive_text text).extracted_directives := by
    rw [process_extracted_eq, process_extracted_eq, hcand]
    exact (hp.trans hq.symm).filterMap _
  have hconf : (p.process_directive_text text).confidence_score =
      (q.process_directive_text text).confidence_score := by
    rw [process_confidence_def, process_confidence_def, hext.length_eq,
      (hext.map (fun e => e.confidence)).sum_eq]
  refine ⟨fun r => rfl, hext, hconf, rfl, rfl, ?_⟩
  rw [process_review_def, process_review_def, hconf]

theorem tier1_deterministic_up_to_order_witness :
    List.Perm
      ((permutedProcessor.process_directive_text multiTypeText).extracted_directives)
      ((MedicalNLPProcessor.new.process_directive_text
        multiTypeText).extracted_directives) ∧
    (permutedProcessor.process_directive_text multiTypeText).confidence_score =
      (MedicalNLPProcessor.new.process_directive_text
        multiTypeText).confidence_score :=
  ⟨(tier1_deterministic_up_to_order multiTypeText permutedProcessor
      MedicalNLPProcessor.new (by decide) (List.Perm.refl _) rfl rfl).2.1,
   (tier1_deterministic_up_to_order multiTypeText permutedProcessor
      MedicalNLPProcessor.new (by decide) (List.Perm.refl _) rfl rfl).2.2.1⟩

/-! ## Organ-network recipient matching (TECHNICAL_ARCHITECTURE lines 545-651) -/

/-- `RecipientMatch` (architecture lines 560-567). -/
structure RecipientMatch where
  recipient_id : String
  compatibility_score : ℚ
  urgency_level : Nat
  distance_km : Nat
  transplant_center : String
deriving DecidableEq

/-- `OrganAvailability` (architecture lines 550-558). -/
structure OrganAvailability where
  organ_type : String
  blood_type : String
  hla_typing : List String
  organ_condition : String
  time_since_harvest : Nat
  location : String
deriving DecidableEq

/-- The weight the sort key applies to an urgency tier:
`b.urgency_level as f32`, i.e. the tier number itself. -/
def urgency_weight (tier : Nat) : ℚ := (tier : ℚ)

/-- The ranking key `compatibility_score * urgency_level as f32`. -/
def rankingKey (m : RecipientMatch) : ℚ :=
  m.compatibility_score * urgency_weight m.urgency_level

/-- The comparator `sort_by(|a, b| (b.c * b.u).partial_cmp(&(a.c * a.u)))`:
`a` may precede `b` exactly when `b`'s key is at most `a`'s. -/
def rankDescBy (a b : RecipientMatch) : Bool :=
  decide (rankingKey b ≤ rankingKey a)

/-- `find_recipients_for_organ` (architecture lines 607-630): the source's
fixed candidate list per organ. -/
def find_recipients_for_organ (organ : OrganAvailability) : List RecipientMatch :=
  [{ recipient_id := "R001", compatibility_score := 19/20, urgency_level := 1
     distance_km := 50, transplant_center := "Mayo Clinic" },
   { recipient_id := "R002", compatibility_score := 22/25, urgency_level := 2
     distance_km := 120, transplant_center := "Johns Hopkins" }]

/-- `register_organ_availability` (architecture lines 585-605): gather matches
per organ, then stable-sort descending by the ranking key (Rust's `sort_by`
is a stable sort, modelled with `List.mergeSort`). -/
def register_organ_availability (patient_id : String)
    (available_organs : List OrganAvailability) : List RecipientMatch :=
  let all_matches := available_organs.flatMap find_recipients_for_organ
  all_matches.mergeSort rankDescBy

theorem rankDescBy_trans (a b c : RecipientMatch)
    (hab : rankDescBy a b) (hbc : rankDescBy b c) : rankDescBy a c := by
  simp only [rankDescBy, decide_eq_true_eq] at *
  exact le_trans hbc hab

theorem rankDescBy_total (a b : RecipientMatch) :
    rankDescBy a b || rankDescBy b a := by
  simp only [rankDescBy, Bool.or_eq_true, decide_eq_true_eq]
  exact le_total (rankingKey b) (rankingKey a)

/-- C6: the matches returned by `register_organ_availability` are the gathered
per-organ candidates stably sorted by `compatibility_score × urgency_weight`
descending: the output is pairwise descending in the key, elements of equal
key keep their gathered order (filter at every key value is unchanged), and
re-running on unchanged inputs returns the same list. -/
theorem recipient_ranking_sorted_stable (patient_id : String)
    (available_organs : List OrganAvailability) :
    (register_organ_availability patient_id available_organs).Pairwise
      (fun a b => rankingKey b ≤ rankingKey a) ∧
    (∀ k : ℚ, (register_organ_availability patient_id
        available_organs).filter (fun m => decide (rankingKey m = k)) =
      (available_organs.flatMap find_recipients_for_organ).filter
        (fun m => decide (rankingKey m = k))) ∧
    register_organ_availability patient_id available_organs =
      register_organ_availability patient_id available_organs := by
  refine ⟨?_, ?_, rfl⟩
  · have h := List.sorted_mergeSort rankDescBy_trans
      rankDescBy_total (available_organs.flatMap find_recipients_for_organ)
    exact h.imp (fun hab => by
      simpa [rankDescBy, decide_eq_true_eq] using hab)
  · intro k
    set l := available_organs.flatMap find_recipients_for_organ with hl
    have hG : (l.filter (fun m => decide (rankingKey m = k))).Pairwise
        (fun a b => rankDescBy a b = true) := by
      apply List.pairwise_of_forall_mem_list
      intro a ha b hb
      have ha' := (List.mem_filter.mp ha).2
      have hb' := (List.mem_filter.mp hb).2
      simp only [decide_eq_true_eq] at ha' hb'
      simp [rankDescBy, ha', hb']
    have hsub : List.Sublist (l.filter (fun m => decide (rankingKey m = k)))
        (l.mergeSort rankDescBy) :=
      List.sublist_mergeSort rankDescBy_trans rankDescBy_total hG
        (List.filter_sublist l)
    have hperm : List.Perm ((l.mergeSort rankDescBy).filter
        (fun m => decide (rankingKey m = k)))
        (l.filter (fun m => decide (rankingKey m = k))) :=
      (List.mergeSort_perm l rankDescBy).filter _
    have hsub2 : List.Sublist (l.filter (fun m => decide (rankingKey m = k)))
        ((l.mergeSort rankDescBy).filter (fun m => decide (rankingKey m = k))) := by
      have h2 := hsub.filter (fun m => decide (rankingKey m = k))
      simp only [List.filter_filter, Bool.and_self] at h2
      exact h2
    exact (hsub2.eq_of_length hperm.length_eq.symm).symm

/-! ## Execution engine (`execute_death_directives`, architecture lines 180-235)

The executor's collaborator calls `assess_organ_viability` and
`find_optimal_recipients` are declared but not defined anywhere in the
repository, so the organs and recipient matches they would produce are taken
as parameters here; the notification side effect is recorded in an explicit
log, one entry per `notify_transplant_center` call. -/

/-- The consent flags the executor reads from the patient's directives. -/
structure PatientDirectives where
  organ_donation_consent : Bool
  research_data_consent : Bool
deriving DecidableEq

/-- `OrganDonationExecution` (architecture lines 184-190). -/
structure OrganDonationExecution where
  patient_id : String
  organs_available : List String
  recipient_matches : List RecipientMatch
  execution_timestamp : Nat
deriving DecidableEq

/-- The executor's observable side effects: the recipients notified via
`notify_transplant_center` (in call order) and the audit log. -/
structure ExecutorState where
  notified : List String
  executionAuditLog : List String
deriving DecidableEq

/-- `execute_organ_donation` (architecture lines 216-235): builds the
execution value and notifies every recipient match. -/
def execute_organ_donation (patient_id : String) (organs : List String)
    (recipientMatches : List RecipientMatch) (now : Nat) (s : ExecutorState) :
    OrganDonationExecution × ExecutorState :=
  ({ patient_id := patient_id, organs_available := organs
     recipient_matches := recipientMatches, execution_timestamp := now },
   { s with notified := s.notified ++ recipientMatches.map (fun m => m.recipient_id) })

/-- `execute_death_directives` (architecture lines 192-214): takes only the
patient id — there is no trigger-event id and no check for an existing
execution record — runs the organ-donation branch when consented, and appends
the execution audit entry. -/
def execute_death_directives (patient_id : String)
    (directives : PatientDirectives) (organs : List String)
    (recipientMatches : List RecipientMatch) (now : Nat) (s : ExecutorState) :
    ExecutorState :=
  let s1 :=
    if directives.organ_donation_consent then
      (execute_organ_donation patient_id organs recipientMatches now s).2
    else s
  { s1 with executionAuditLog := s1.executionAuditLog ++
      ["AUDIT: directives executed for patient " ++ patient_id] }

/-- C2 counterexample: with an `ORGAN_DONATION` consent and one recipient
match, two invocations of `execute_death_directives` for the same patient
notify the recipient twice — the organ-network notify call is not
"at most once per recipient". -/
theorem execute_death_directives_not_idempotent :
    (execute_death_directives "P2"
      { organ_donation_consent := true, research_data_consent := false }
      ["heart"]
      [{ recipient_id := "R001", compatibility_score := 19/20
         urgency_level := 1, distance_km := 50
         transplant_center := "Mayo Clinic" }] 100
      (execute_death_directives "P2"
        { organ_donation_consent := true, research_data_consent := false }
        ["heart"]
        [{ recipient_id := "R001", compatibility_score := 19/20
           urgency_level := 1, distance_km := 50
           transplant_center := "Mayo Clinic" }] 100
        { notified := [], executionAuditLog := [] })).notified.count "R001" = 2 := by
  rfl

/-- C2 amended: `execute_death_directives` performs no idempotence check —
each invocation with an organ-donation consent re-runs the organ branch and
re-notifies every recipient match, so a second call for the same patient
appends the recipient list to the notification log again. -/
theorem execute_death_directives_renotifies (patient_id : String)
    (directives : PatientDirectives) (organs : List String)
    (recipientMatches : List RecipientMatch) (now : Nat) (s : ExecutorState)
    (hc : directives.organ_donation_consent = true) :
    (execute_death_directives patient_id directives organs recipientMatches now
      (execute_death_directives patient_id directives organs recipientMatches now
        s)).notified =
      s.notified ++ recipientMatches.map (fun m => m.recipient_id) ++
        recipientMatches.map (fun m => m.recipient_id) := by
  simp [execute_death_directives, execute_organ_donation, hc]

theorem execute_death_directives_renotifies_witness :
    (execute_death_directives "P2"
      { organ_donation_consent := true, research_data_consent := false }
      ["heart"]
      [{ recipient_id := "R001", compatibility_score := 19/20
         urgency_level := 1, distance_km := 50
         transplant_center := "Mayo Clinic" }] 100
      (execute_death_directives "P2"
        { organ_donation_consent := true, research_data_consent := false }
        ["heart"]
        [{ recipient_id := "R001", compatibility_score := 19/20
           urgency_level := 1, distance_km := 50
           transplant_center := "Mayo Clinic" }] 100
        { notified := [], executionAuditLog := [] })).notified =
      [] ++ ["R001"] ++ ["R001"] :=
  execute_death_directives_renotifies "P2"
    { organ_donation_consent := true, research_data_consent := false }
    ["heart"]
    [{ recipient_id := "R001", compatibility_score := 19/20
       urgency_level := 1, distance_km := 50
       transplant_center := "Mayo Clinic" }] 100
    { notified := [], executionAuditLog := [] } rfl

end EchoLedger
